import Mathlib

/-!
Verification development for the muted-notification OBS audio filter
(`muted_filter` in the plugin source).  The filter watches an audio source,
runs a noise-gate style envelope over every sample while the source is muted,
and fires a one-shot notification (clip playback and/or visual flash) when the
gate is open and a refractory window of `file_length + cooldown` milliseconds
has elapsed since the last notification.

The embedding below translates the C source shallowly:
  * `float` values become `ℚ` (exact arithmetic standing in for IEEE floats;
    all the claims under study are order/branch properties, not rounding ones);
  * `uint64_t` millisecond quantities become `ℕ` (the modelled ranges — clip
    lengths, cooldowns in [0,10000] ms, monotone clock values — never reach
    2^64, so wraparound is unreachable and not modelled; theorems about the
    clock carry the monotonicity hypothesis `lastPlayTime ≤ timeMs`);
  * results of external library calls (`ma_decoder_init_file`,
    `ma_decoder_get_length_in_pcm_frames`, device enumeration, and the dB→linear
    conversion `db_to_mul` from obs's audio-math header) are passed in as
    explicit parameters, since they are outside this repository.
-/

/-- The per-instance filter state `struct muted_data`, restricted to the fields
read or written by the modelled operations (the miniaudio context/device/decoder
handles and the obs source pointer are external resources and carry no state the
claims mention).  `file_path`/`device` are `Option String` because the C fields
are nullable pointers. -/
structure MutedData where
  filePath : Option String
  device : Option String
  sampleRateI : ℚ
  channels : ℕ
  openThreshold : ℚ
  closeThreshold : ℚ
  decayRate : ℚ
  attackRate : ℚ
  releaseRate : ℚ
  holdTime : ℚ
  isOpen : Bool
  attenuation : ℚ
  level : ℚ
  heldTime : ℚ
  cooldown : ℕ
  lastPlayTime : ℕ
  fileLength : ℕ
  audioIndicator : Bool
  visualIndicator : Bool
  indicatorSize : ℤ
  deriving Repr, DecidableEq

/-- The values `muted_update` reads from its `obs_data_t` settings object,
together with the two values it queries from the host on the same call
(`audio_output_get_sample_rate` and `audio_output_get_channels`). -/
structure MSettings where
  file : String
  device : String
  openThresholdDb : ℚ
  closeThresholdDb : ℚ
  attackTimeMs : ℤ
  holdTimeMs : ℤ
  releaseTimeMs : ℤ
  cooldown : ℕ
  audioIndicator : Bool
  visualIndicator : Bool
  indicatorSize : ℤ
  sampleRate : ℚ
  channels : ℕ
  deriving Repr, DecidableEq

/-- Outcomes of the external miniaudio calls performed when `muted_update`
reloads the clip and reopens the playback device. -/
structure ReloadEnv where
  decodeOk : Bool
  lengthOk : Bool
  frameCount : ℕ
  outputSampleRate : ℕ
  deviceFound : Bool
  deviceFoundAgain : Bool
  deriving Repr, DecidableEq

/-- `ms_to_secf`: millisecond integer to seconds. -/
def msToSecf (ms : ℤ) : ℚ := (ms : ℚ) / 1000

/-- `free_wav`: releases the decoder and clears the stored file path. -/
def freeWav (d : MutedData) : MutedData := { d with filePath := none }

/-- `load_wav`: on decoder-init success the path is stored and, if the
frame-count query also succeeds, the clip length is computed as
`(frameCount / outputSampleRate) * 1000` — an integer (uint64) division by the
sample rate FIRST, then scaling to milliseconds, exactly as the source writes
it.  On decoder failure nothing is stored; on a length-query failure the old
`file_length` is retained. -/
def loadWav (d : MutedData) (path : String) (decodeOk lengthOk : Bool)
    (frameCount outputSampleRate : ℕ) : MutedData :=
  if decodeOk then
    { d with filePath := some path,
             fileLength := if lengthOk then frameCount / outputSampleRate * 1000
                           else d.fileLength }
  else d

/-- `free_device`: closes the playback device and clears the stored name. -/
def freeDevice (d : MutedData) : MutedData := { d with device := none }

/-- `open_device`: stores the device name iff enumeration found an exact match
and stream initialization succeeded. -/
def openDevice (d : MutedData) (name : String) (found : Bool) : MutedData :=
  if found then { d with device := some name } else d

/-- `muted_update`: re-reads every setting, recomputes the derived gate
coefficients, resets the gate state, and conditionally reloads the clip file
and playback device when the configured path or device name changed.
`dbToMul` is obs's `db_to_mul` (linear = 10^(db/20)), an external header
function, passed in abstractly. -/
def mutedUpdate (dbToMul : ℚ → ℚ) (ng : MutedData) (s : MSettings)
    (env : ReloadEnv) : MutedData :=
  let sampleRate := s.sampleRate
  let openThreshold := dbToMul s.openThresholdDb
  let closeThreshold := dbToMul s.closeThresholdDb
  let ng1 : MutedData :=
    { ng with
      cooldown := s.cooldown,
      audioIndicator := s.audioIndicator,
      visualIndicator := s.visualIndicator,
      indicatorSize := s.indicatorSize,
      sampleRateI := 1 / sampleRate,
      channels := s.channels,
      openThreshold := openThreshold,
      closeThreshold := closeThreshold,
      attackRate := 1 / (msToSecf s.attackTimeMs * sampleRate),
      releaseRate := 1 / (msToSecf s.releaseTimeMs * sampleRate),
      decayRate := (openThreshold - closeThreshold) / (1 / 75 * sampleRate),
      holdTime := msToSecf s.holdTimeMs,
      isOpen := false,
      attenuation := 0,
      level := 0,
      heldTime := 0 }
  let ng2 : MutedData :=
    if ng1.filePath ≠ some s.file then
      openDevice
        (freeDevice
          (loadWav (freeWav ng1) s.file env.decodeOk env.lengthOk
            env.frameCount env.outputSampleRate))
        s.device env.deviceFound
    else ng1
  if ng2.device ≠ some s.device then
    openDevice (freeDevice ng2) s.device env.deviceFoundAgain
  else ng2

/-- `cur_level` for one sample index: `fabsf(adata[0][i])` then, over every
channel `j`, `fmaxf` with `fabsf(adata[j][i])`.  A frame is the list of the
per-channel sample values at one index. -/
def curLevel (frame : List ℚ) : ℚ :=
  List.foldl (fun m x => max m |x|) |frame.headD 0| frame

/-- One iteration of the per-sample loop of `muted_filter_audio`, taking the
already-computed channel maximum `cur`:
open test, close test (against the PREVIOUS smoothed `level`), level decay,
then attack / hold+release of the attenuation. -/
def gateStepLevel (ng : MutedData) (cur : ℚ) : MutedData :=
  let o1 : Bool := if cur > ng.openThreshold ∧ ng.isOpen = false then true else ng.isOpen
  let held1 : ℚ := if ng.level < ng.closeThreshold ∧ o1 = true then 0 else ng.heldTime
  let o2 : Bool := if ng.level < ng.closeThreshold ∧ o1 = true then false else o1
  let lvl : ℚ := max ng.level cur - ng.decayRate
  if o2 then
    { ng with isOpen := o2, heldTime := held1, level := lvl,
              attenuation := min 1 (ng.attenuation + ng.attackRate) }
  else
    let held2 : ℚ := held1 + ng.sampleRateI
    { ng with isOpen := o2, heldTime := held2, level := lvl,
              attenuation := if held2 > ng.holdTime
                             then max 0 (ng.attenuation - ng.releaseRate)
                             else ng.attenuation }

/-- One iteration of the per-sample loop on a raw multichannel frame. -/
def gateStep (ng : MutedData) (frame : List ℚ) : MutedData :=
  gateStepLevel ng (curLevel frame)

/-- The whole per-sample loop of `muted_filter_audio` over a buffer. -/
def processFrames (ng : MutedData) (frames : List (List ℚ)) : MutedData :=
  List.foldl gateStep ng frames

/-- `muted_filter_audio`: if the parent source is not muted, force the gate
closed and return at once (no sample processing, no trigger check).  Otherwise
run the per-sample loop, then the trigger check: if the gate is open and
strictly more than `file_length + cooldown` ms have elapsed since the last
notification, record the fire time.  The Bool result reports whether a trigger
fired (i.e. whether clip playback / the visual flash were requested, subject to
their enable flags). -/
def mutedFilterAudio (ng : MutedData) (muted : Bool) (frames : List (List ℚ))
    (timeMs : ℕ) : MutedData × Bool :=
  if muted = false then ({ ng with isOpen := false }, false)
  else
    let ng1 := processFrames ng frames
    if ng1.isOpen = true ∧ timeMs - ng1.lastPlayTime > ng1.fileLength + ng1.cooldown then
      ({ ng1 with lastPlayTime := timeMs }, true)
    else (ng1, false)

/-! ### Basic characterizations of one gate step -/

/-- The configuration fields are read-only inside the sample loop. -/
@[simp]
theorem gateStepLevel_openThreshold (ng : MutedData) (cur : ℚ) :
    (gateStepLevel ng cur).openThreshold = ng.openThreshold := by
  unfold gateStepLevel; dsimp only; repeat' split
  all_goals rfl

@[simp]
theorem gateStepLevel_closeThreshold (ng : MutedData) (cur : ℚ) :
    (gateStepLevel ng cur).closeThreshold = ng.closeThreshold := by
  unfold gateStepLevel; dsimp only; repeat' split
  all_goals rfl

@[simp]
theorem gateStepLevel_decayRate (ng : MutedData) (cur : ℚ) :
    (gateStepLevel ng cur).decayRate = ng.decayRate := by
  unfold gateStepLevel; dsimp only; repeat' split
  all_goals rfl

@[simp]
theorem gateStepLevel_attackRate (ng : MutedData) (cur : ℚ) :
    (gateStepLevel ng cur).attackRate = ng.attackRate := by
  unfold gateStepLevel; dsimp only; repeat' split
  all_goals rfl

@[simp]
theorem gateStepLevel_releaseRate (ng : MutedData) (cur : ℚ) :
    (gateStepLevel ng cur).releaseRate = ng.releaseRate := by
  unfold gateStepLevel; dsimp only; repeat' split
  all_goals rfl

@[simp]
theorem gateStepLevel_sampleRateI (ng : MutedData) (cur : ℚ) :
    (gateStepLevel ng cur).sampleRateI = ng.sampleRateI := by
  unfold gateStepLevel; dsimp only; repeat' split
  all_goals rfl

@[simp]
theorem gateStepLevel_holdTime (ng : MutedData) (cur : ℚ) :
    (gateStepLevel ng cur).holdTime = ng.holdTime := by
  unfold gateStepLevel; dsimp only; repeat' split
  all_goals rfl

@[simp]
theorem gateStepLevel_cooldown (ng : MutedData) (cur : ℚ) :
    (gateStepLevel ng cur).cooldown = ng.cooldown := by
  unfold gateStepLevel; dsimp only; repeat' split
  all_goals rfl

@[simp]
theorem gateStepLevel_lastPlayTime (ng : MutedData) (cur : ℚ) :
    (gateStepLevel ng cur).lastPlayTime = ng.lastPlayTime := by
  unfold gateStepLevel; dsimp only; repeat' split
  all_goals rfl

@[simp]
theorem gateStepLevel_fileLength (ng : MutedData) (cur : ℚ) :
    (gateStepLevel ng cur).fileLength = ng.fileLength := by
  unfold gateStepLevel; dsimp only; repeat' split
  all_goals rfl

/-- The envelope update `level = fmaxf(level, cur_level) - decay_rate` happens
on every sample, on both gate branches. -/
@[simp]
theorem gateStepLevel_level (ng : MutedData) (cur : ℚ) :
    (gateStepLevel ng cur).level = max ng.level cur - ng.decayRate := by
  unfold gateStepLevel; dsimp only; repeat' split
  all_goals rfl

/-- Gate state after one sample: the open test may set it, then the close test
(against the previous smoothed `level`) may clear it again. -/
theorem gateStepLevel_isOpen (ng : MutedData) (cur : ℚ) :
    (gateStepLevel ng cur).isOpen
      = ((ng.isOpen || decide (ng.openThreshold < cur))
          && !decide (ng.level < ng.closeThreshold)) := by
  cases hIs : ng.isOpen <;>
    by_cases ho : ng.openThreshold < cur <;>
      by_cases hc : ng.level < ng.closeThreshold <;>
        simp [gateStepLevel, hIs, ho, hc, gt_iff_lt]

/-! ### Invariants of the whole sample loop -/

@[simp]
theorem processFrames_nil (ng : MutedData) : processFrames ng [] = ng := rfl

@[simp]
theorem processFrames_cons (ng : MutedData) (f : List ℚ) (fs : List (List ℚ)) :
    processFrames ng (f :: fs) = processFrames (gateStep ng f) fs := rfl

@[simp]
theorem processFrames_openThreshold (frames : List (List ℚ)) (ng : MutedData) :
    (processFrames ng frames).openThreshold = ng.openThreshold := by
  induction frames generalizing ng with
  | nil => rfl
  | cons f fs ih => rw [processFrames_cons, ih]; exact gateStepLevel_openThreshold ng _

@[simp]
theorem processFrames_closeThreshold (frames : List (List ℚ)) (ng : MutedData) :
    (processFrames ng frames).closeThreshold = ng.closeThreshold := by
  induction frames generalizing ng with
  | nil => rfl
  | cons f fs ih => rw [processFrames_cons, ih]; exact gateStepLevel_closeThreshold ng _

@[simp]
theorem processFrames_decayRate (frames : List (List ℚ)) (ng : MutedData) :
    (processFrames ng frames).decayRate = ng.decayRate := by
  induction frames generalizing ng with
  | nil => rfl
  | cons f fs ih => rw [processFrames_cons, ih]; exact gateStepLevel_decayRate ng _

@[simp]
theorem processFrames_attackRate (frames : List (List ℚ)) (ng : MutedData) :
    (processFrames ng frames).attackRate = ng.attackRate := by
  induction frames generalizing ng with
  | nil => rfl
  | cons f fs ih => rw [processFrames_cons, ih]; exact gateStepLevel_attackRate ng _

@[simp]
theorem processFrames_releaseRate (frames : List (List ℚ)) (ng : MutedData) :
    (processFrames ng frames).releaseRate = ng.releaseRate := by
  induction frames generalizing ng with
  | nil => rfl
  | cons f fs ih => rw [processFrames_cons, ih]; exact gateStepLevel_releaseRate ng _

@[simp]
theorem processFrames_cooldown (frames : List (List ℚ)) (ng : MutedData) :
    (processFrames ng frames).cooldown = ng.cooldown := by
  induction frames generalizing ng with
  | nil => rfl
  | cons f fs ih => rw [processFrames_cons, ih]; exact gateStepLevel_cooldown ng _

@[simp]
theorem processFrames_lastPlayTime (frames : List (List ℚ)) (ng : MutedData) :
    (processFrames ng frames).lastPlayTime = ng.lastPlayTime := by
  induction frames generalizing ng with
  | nil => rfl
  | cons f fs ih => rw [processFrames_cons, ih]; exact gateStepLevel_lastPlayTime ng _

@[simp]
theorem processFrames_fileLength (frames : List (List ℚ)) (ng : MutedData) :
    (processFrames ng frames).fileLength = ng.fileLength := by
  induction frames generalizing ng with
  | nil => rfl
  | cons f fs ih => rw [processFrames_cons, ih]; exact gateStepLevel_fileLength ng _

/-- The running channel maximum starts at an absolute value, so it can only
grow from a nonnegative seed. -/
theorem le_foldl_absmax (l : List ℚ) (a : ℚ) :
    a ≤ List.foldl (fun m x => max m |x|) a l := by
  induction l generalizing a with
  | nil => exact le_refl a
  | cons x xs ih => exact le_trans (le_max_left a |x|) (ih (max a |x|))

/-- `cur_level` is a maximum of absolute values, hence nonnegative. -/
theorem curLevel_nonneg (frame : List ℚ) : 0 ≤ curLevel frame :=
  le_trans (abs_nonneg _) (le_foldl_absmax frame _)

/-- After one step the attenuation is one of its three syntactic outcomes:
attack (gate open), release (held longer than the hold time), or unchanged. -/
theorem gateStepLevel_attenuation_cases (ng : MutedData) (cur : ℚ) :
    (gateStepLevel ng cur).attenuation = min 1 (ng.attenuation + ng.attackRate) ∨
    (gateStepLevel ng cur).attenuation = max 0 (ng.attenuation - ng.releaseRate) ∨
    (gateStepLevel ng cur).attenuation = ng.attenuation := by
  unfold gateStepLevel
  dsimp only
  split_ifs <;>
    first
      | exact Or.inl rfl
      | exact Or.inr (Or.inl rfl)
      | exact Or.inr (Or.inr rfl)

/-- One step keeps `attenuation` inside `[0,1]` as long as the attack and
release rates are nonnegative: the attack branch clamps above at 1 via
`fminf`, the release branch clamps below at 0 via `fmaxf`. -/
theorem gateStepLevel_attenuation_bounds (ng : MutedData) (cur : ℚ)
    (hA : 0 ≤ ng.attackRate) (hR : 0 ≤ ng.releaseRate)
    (h0 : 0 ≤ ng.attenuation) (h1 : ng.attenuation ≤ 1) :
    0 ≤ (gateStepLevel ng cur).attenuation ∧ (gateStepLevel ng cur).attenuation ≤ 1 := by
  rcases gateStepLevel_attenuation_cases ng cur with h | h | h <;> rw [h]
  · exact ⟨le_min zero_le_one (add_nonneg h0 hA), min_le_left _ _⟩
  · exact ⟨le_max_left _ _, max_le zero_le_one (le_trans (sub_le_self _ hR) h1)⟩
  · exact ⟨h0, h1⟩

/-- The `[0,1]` attenuation invariant is preserved across a whole buffer. -/
theorem processFrames_attenuation_bounds (frames : List (List ℚ)) (ng : MutedData)
    (hA : 0 ≤ ng.attackRate) (hR : 0 ≤ ng.releaseRate)
    (h0 : 0 ≤ ng.attenuation) (h1 : ng.attenuation ≤ 1) :
    0 ≤ (processFrames ng frames).attenuation ∧ (processFrames ng frames).attenuation ≤ 1 := by
  induction frames generalizing ng with
  | nil => exact ⟨h0, h1⟩
  | cons f fs ih =>
      rw [processFrames_cons]
      have hstep := gateStepLevel_attenuation_bounds ng (curLevel f) hA hR h0 h1
      exact ih (gateStep ng f)
        (by rw [gateStep, gateStepLevel_attackRate]; exact hA)
        (by rw [gateStep, gateStepLevel_releaseRate]; exact hR)
        hstep.1 hstep.2

/-- After any single sample the envelope sits at least `decayRate` above the
negated decay: `level' = max(level, cur) - decayRate ≥ cur - decayRate ≥
-decayRate` because `cur` is a maximum of absolute values. -/
theorem gateStep_level_lb (ng : MutedData) (f : List ℚ) :
    -ng.decayRate ≤ (gateStep ng f).level := by
  rw [gateStep, gateStepLevel_level]
  have h1 : (0 : ℚ) - ng.decayRate ≤ max ng.level (curLevel f) - ng.decayRate :=
    sub_le_sub_right (le_trans (curLevel_nonneg f) (le_max_right _ _)) _
  calc -ng.decayRate = 0 - ng.decayRate := by ring
    _ ≤ max ng.level (curLevel f) - ng.decayRate := h1

/-- Across a whole run the envelope never drops below
`min(initial level, -decayRate)`: far from drifting arbitrarily negative, the
`max` with the nonnegative per-sample peak pins it. -/
theorem processFrames_level_lb (frames : List (List ℚ)) (ng : MutedData) :
    min ng.level (-ng.decayRate) ≤ (processFrames ng frames).level := by
  induction frames generalizing ng with
  | nil => exact min_le_left _ _
  | cons f fs ih =>
      rw [processFrames_cons]
      refine le_trans ?_ (ih (gateStep ng f))
      have hd : (gateStep ng f).decayRate = ng.decayRate := gateStepLevel_decayRate ng _
      rw [hd]
      exact le_min (le_trans (min_le_right _ _) (gateStep_level_lb ng f)) (min_le_right _ _)

/-- A closed gate can end a buffer open only if some frame in the buffer
exceeded the open threshold. -/
theorem processFrames_open_needs_loud (frames : List (List ℚ)) (ng : MutedData)
    (hclosed : ng.isOpen = false)
    (hopen : (processFrames ng frames).isOpen = true) :
    ∃ f ∈ frames, ng.openThreshold < curLevel f := by
  induction frames generalizing ng with
  | nil => rw [processFrames_nil] at hopen; rw [hclosed] at hopen; exact absurd hopen (by simp)
  | cons f fs ih =>
      rw [processFrames_cons] at hopen
      by_cases hstep : (gateStep ng f).isOpen = true
      · refine ⟨f, List.mem_cons_self f fs, ?_⟩
        rw [gateStep, gateStepLevel_isOpen, hclosed] at hstep
        simp only [Bool.false_or, Bool.and_eq_true, decide_eq_true_eq] at hstep
        exact hstep.1
      · rcases ih (gateStep ng f) (Bool.not_eq_true _ ▸ Bool.of_not_eq_true hstep) hopen with ⟨g, hg, hgt⟩
        rw [gateStep, gateStepLevel_openThreshold] at hgt
        exact ⟨g, List.mem_cons_of_mem f hg, hgt⟩

/-! ### The buffer-level filter call -/

/-- When the parent source is not muted, `muted_filter_audio` only forces the
gate closed and returns: no sample is processed, no trigger check runs, and no
other field changes. -/
@[simp]
theorem mutedFilterAudio_not_muted (ng : MutedData) (frames : List (List ℚ)) (t : ℕ) :
    mutedFilterAudio ng false frames t = ({ ng with isOpen := false }, false) := rfl

/-- While muted, a trigger fires exactly when the gate is open after the sample
loop and strictly more than `file_length + cooldown` ms have passed since the
last fire. -/
theorem mutedFilterAudio_muted_fired (ng : MutedData) (frames : List (List ℚ)) (t : ℕ) :
    (mutedFilterAudio ng true frames t).2
      = ((processFrames ng frames).isOpen
          && decide (ng.fileLength + ng.cooldown < t - ng.lastPlayTime)) := by
  unfold mutedFilterAudio
  rw [if_neg (by simp : ¬ true = false)]
  dsimp only
  split_ifs with h
  · rcases h with ⟨ho, hgt⟩
    rw [processFrames_lastPlayTime, processFrames_fileLength, processFrames_cooldown] at hgt
    simp [ho, hgt]
  · rw [processFrames_lastPlayTime, processFrames_fileLength, processFrames_cooldown] at h
    by_cases ho : (processFrames ng frames).isOpen = true
    · have hng : ¬ (ng.fileLength + ng.cooldown < t - ng.lastPlayTime) := fun hgt => h ⟨ho, hgt⟩
      simp [ho, hng]
    · rw [Bool.not_eq_true] at ho
      simp [ho]

/-! ### Effects of a settings update -/

@[simp]
theorem mutedUpdate_isOpen (dbToMul : ℚ → ℚ) (ng : MutedData) (s : MSettings) (env : ReloadEnv) :
    (mutedUpdate dbToMul ng s env).isOpen = false := by
  unfold mutedUpdate loadWav freeWav freeDevice openDevice
  dsimp only
  split_ifs <;> rfl

@[simp]
theorem mutedUpdate_attenuation (dbToMul : ℚ → ℚ) (ng : MutedData) (s : MSettings) (env : ReloadEnv) :
    (mutedUpdate dbToMul ng s env).attenuation = 0 := by
  unfold mutedUpdate loadWav freeWav freeDevice openDevice
  dsimp only
  split_ifs <;> rfl

@[simp]
theorem mutedUpdate_level (dbToMul : ℚ → ℚ) (ng : MutedData) (s : MSettings) (env : ReloadEnv) :
    (mutedUpdate dbToMul ng s env).level = 0 := by
  unfold mutedUpdate loadWav freeWav freeDevice openDevice
  dsimp only
  split_ifs <;> rfl

@[simp]
theorem mutedUpdate_heldTime (dbToMul : ℚ → ℚ) (ng : MutedData) (s : MSettings) (env : ReloadEnv) :
    (mutedUpdate dbToMul ng s env).heldTime = 0 := by
  unfold mutedUpdate loadWav freeWav freeDevice openDevice
  dsimp only
  split_ifs <;> rfl

@[simp]
theorem mutedUpdate_lastPlayTime (dbToMul : ℚ → ℚ) (ng : MutedData) (s : MSettings) (env : ReloadEnv) :
    (mutedUpdate dbToMul ng s env).lastPlayTime = ng.lastPlayTime := by
  unfold mutedUpdate loadWav freeWav freeDevice openDevice
  dsimp only
  split_ifs <;> rfl

@[simp]
theorem mutedUpdate_cooldown (dbToMul : ℚ → ℚ) (ng : MutedData) (s : MSettings) (env : ReloadEnv) :
    (mutedUpdate dbToMul ng s env).cooldown = s.cooldown := by
  unfold mutedUpdate loadWav freeWav freeDevice openDevice
  dsimp only
  split_ifs <;> rfl

@[simp]
theorem mutedUpdate_decayRate (dbToMul : ℚ → ℚ) (ng : MutedData) (s : MSettings) (env : ReloadEnv) :
    (mutedUpdate dbToMul ng s env).decayRate
      = (dbToMul s.openThresholdDb - dbToMul s.closeThresholdDb) / (1 / 75 * s.sampleRate) := by
  unfold mutedUpdate loadWav freeWav freeDevice openDevice
  dsimp only
  split_ifs <;> rfl

@[simp]
theorem mutedUpdate_attackRate (dbToMul : ℚ → ℚ) (ng : MutedData) (s : MSettings) (env : ReloadEnv) :
    (mutedUpdate dbToMul ng s env).attackRate
      = 1 / (msToSecf s.attackTimeMs * s.sampleRate) := by
  unfold mutedUpdate loadWav freeWav freeDevice openDevice
  dsimp only
  split_ifs <;> rfl

@[simp]
theorem mutedUpdate_releaseRate (dbToMul : ℚ → ℚ) (ng : MutedData) (s : MSettings) (env : ReloadEnv) :
    (mutedUpdate dbToMul ng s env).releaseRate
      = 1 / (msToSecf s.releaseTimeMs * s.sampleRate) := by
  unfold mutedUpdate loadWav freeWav freeDevice openDevice
  dsimp only
  split_ifs <;> rfl

/-! ### Concrete data for counterexamples and witnesses -/

/-- A concrete configured filter state: 48 kHz mono, linear thresholds
`open = 1/20`, `close = 1/40`, a deliberately coarse decay of `1/4` per sample,
a 1000 ms clip and a 1500 ms cooldown; gate initially closed and at rest. -/
def sampleData : MutedData :=
  { filePath := some "clip.wav", device := some "dev",
    sampleRateI := 1 / 48000, channels := 1,
    openThreshold := 1 / 20, closeThreshold := 1 / 40,
    decayRate := 1 / 4, attackRate := 1 / 1200, releaseRate := 1 / 7200,
    holdTime := 1 / 5, isOpen := false, attenuation := 0, level := 0, heldTime := 0,
    cooldown := 1500, lastPlayTime := 0, fileLength := 1000,
    audioIndicator := true, visualIndicator := true, indicatorSize := 45 }

/-- Concrete settings matching `sampleData`'s path and device (so a settings
update performs no reload), with the dB fields already given in linear form so
that the identity function can stand in for `db_to_mul`. -/
def sampleSettings : MSettings :=
  { file := "clip.wav", device := "dev",
    openThresholdDb := 1 / 20, closeThresholdDb := 1 / 40,
    attackTimeMs := 25, holdTimeMs := 200, releaseTimeMs := 150,
    cooldown := 1500, audioIndicator := true, visualIndicator := true,
    indicatorSize := 45, sampleRate := 48000, channels := 1 }

/-- Concrete successful outcomes for the external calls of a reload. -/
def sampleEnv : ReloadEnv :=
  { decodeOk := true, lengthOk := true, frameCount := 72000,
    outputSampleRate := 48000, deviceFound := true, deviceFoundAgain := true }

/-- Booleans: the negation of a strict rational comparison decides the reversed
weak comparison. -/
theorem bool_not_decide_lt (a b : ℚ) : (!decide (a < b)) = decide (b ≤ a) := by
  by_cases h : a < b
  · simp [h, not_le.mpr h]
  · simp [h, not_lt.mp h]

/-! ### Claim C1 -/

/-- Claim C1 is false at the window boundary: with the gate open, the source
muted, and exactly `clipLengthMs + cooldownMs` = 1000 + 1500 = 2500 ms elapsed
since the previous trigger, the buffer-end check does NOT fire, because the
source compares with strict `>`. -/
theorem fire_at_exact_window_boundary_fails :
    ({ sampleData with isOpen := true } : MutedData).isOpen = true ∧
    2500 - ({ sampleData with isOpen := true } : MutedData).lastPlayTime
      = ({ sampleData with isOpen := true } : MutedData).fileLength
        + ({ sampleData with isOpen := true } : MutedData).cooldown ∧
    (mutedFilterAudio { sampleData with isOpen := true } true [] 2500).2 = false := by
  refine ⟨rfl, rfl, ?_⟩
  norm_num [mutedFilterAudio, processFrames, sampleData]

/-- Claim C1 (amended): while the source stays muted, no second trigger fires
while the elapsed time since the previous trigger is at most
`clipLengthMs + cooldownMs`; a trigger fires at a buffer-end check exactly when
the elapsed time STRICTLY exceeds that window and the gate is still open after
the buffer's samples (the comparison is strict, so the boundary itself does not
fire). -/
theorem trigger_refractory_window (ng : MutedData) (muted : Bool)
    (frames : List (List ℚ)) (timeMs : ℕ)
    (hmono : ng.lastPlayTime ≤ timeMs) :
    (timeMs - ng.lastPlayTime ≤ ng.fileLength + ng.cooldown →
      (mutedFilterAudio ng muted frames timeMs).2 = false) ∧
    (muted = true → ng.fileLength + ng.cooldown < timeMs - ng.lastPlayTime →
      (processFrames ng frames).isOpen = true →
      (mutedFilterAudio ng muted frames timeMs).2 = true) := by
  constructor
  · intro hle
    cases muted with
    | false => rw [mutedFilterAudio_not_muted]
    | true =>
        rw [mutedFilterAudio_muted_fired]
        have hn : ¬ (ng.fileLength + ng.cooldown < timeMs - ng.lastPlayTime) := not_lt.mpr hle
        simp [hn]
  · intro hm hgt hopen
    subst hm
    rw [mutedFilterAudio_muted_fired, hopen]
    simp [hgt]

/-- Witness for C1's amended theorem: one tick past the window, the open gate
fires. -/
theorem trigger_refractory_window_witness :
    (mutedFilterAudio { sampleData with isOpen := true } true [] 2501).2 = true :=
  (trigger_refractory_window { sampleData with isOpen := true } true [] 2501
      (by norm_num [sampleData])).2 rfl (by norm_num [sampleData]) rfl

/-! ### Claim C2 -/

/-- Claim C2: for every sequence of input frames and every initial configured
state (one produced by `muted_update` from settings whose attack/release times
and sample rate are nonnegative, per the configuration ranges), `attenuation`
lies in [0, 1] after every per-sample update step. -/
theorem attenuation_stays_in_unit_interval
    (dbToMul : ℚ → ℚ) (ng0 : MutedData) (s : MSettings) (env : ReloadEnv)
    (hA : 0 ≤ s.attackTimeMs) (hR : 0 ≤ s.releaseTimeMs) (hSR : 0 ≤ s.sampleRate)
    (frames : List (List ℚ)) (n : ℕ) :
    0 ≤ (processFrames (mutedUpdate dbToMul ng0 s env) (List.take n frames)).attenuation ∧
    (processFrames (mutedUpdate dbToMul ng0 s env) (List.take n frames)).attenuation ≤ 1 := by
  have hA' : 0 ≤ (mutedUpdate dbToMul ng0 s env).attackRate := by
    rw [mutedUpdate_attackRate]
    refine one_div_nonneg.mpr (mul_nonneg ?_ hSR)
    unfold msToSecf
    have : (0 : ℚ) ≤ (s.attackTimeMs : ℚ) := by exact_mod_cast hA
    positivity
  have hR' : 0 ≤ (mutedUpdate dbToMul ng0 s env).releaseRate := by
    rw [mutedUpdate_releaseRate]
    refine one_div_nonneg.mpr (mul_nonneg ?_ hSR)
    unfold msToSecf
    have : (0 : ℚ) ≤ (s.releaseTimeMs : ℚ) := by exact_mod_cast hR
    positivity
  exact processFrames_attenuation_bounds _ _ hA' hR'
    (by rw [mutedUpdate_attenuation]) (by rw [mutedUpdate_attenuation]; norm_num)

/-- Witness for C2 at a fully concrete configuration and buffer. -/
theorem attenuation_stays_in_unit_interval_witness :
    0 ≤ (processFrames (mutedUpdate (fun db => db) sampleData sampleSettings sampleEnv)
          (List.take 2 [[(1:ℚ)/2], [0]])).attenuation ∧
    (processFrames (mutedUpdate (fun db => db) sampleData sampleSettings sampleEnv)
          (List.take 2 [[(1:ℚ)/2], [0]])).attenuation ≤ 1 :=
  attenuation_stays_in_unit_interval (fun db => db) sampleData sampleSettings sampleEnv
    (by norm_num [sampleSettings]) (by norm_num [sampleSettings])
    (by norm_num [sampleSettings]) [[(1:ℚ)/2], [0]] 2

/-! ### Claim C3 -/

/-- Claim C3, as stated, is false: from a closed gate whose carried envelope
`level` (0) is below `closeThreshold` (1/40), a sample of absolute value 1/2 —
well above `openThreshold` (1/20) — leaves the gate CLOSED at the end of that
sample's processing, because the close test re-closes it within the same
iteration. -/
theorem gate_open_one_sample_fails :
    sampleData.isOpen = false ∧
    sampleData.openThreshold < curLevel [1/2] ∧
    (gateStep sampleData [1/2]).isOpen = false := by
  refine ⟨rfl, ?_, ?_⟩ <;>
    norm_num [gateStep, gateStepLevel, curLevel, sampleData, abs_of_nonneg]

/-- Claim C3 (amended): when the per-channel maximum exceeds `openThreshold`
with the gate closed, the open branch fires within that sample, but the close
branch runs in the same iteration, so at the END of the sample the gate is open
exactly when the carried-over `level` is at least `closeThreshold`; and a
single sample at or below `openThreshold` never opens a closed gate. -/
theorem gate_open_within_sample (ng : MutedData) (frame : List ℚ)
    (hclosed : ng.isOpen = false) :
    (ng.openThreshold < curLevel frame →
      (gateStep ng frame).isOpen = decide (ng.closeThreshold ≤ ng.level)) ∧
    (curLevel frame ≤ ng.openThreshold → (gateStep ng frame).isOpen = false) := by
  constructor
  · intro hgt
    rw [gateStep, gateStepLevel_isOpen, hclosed]
    simp only [Bool.false_or, decide_eq_true_eq]
    rw [decide_eq_true hgt, Bool.true_and]
    exact bool_not_decide_lt ng.level ng.closeThreshold
  · intro hle
    rw [gateStep, gateStepLevel_isOpen, hclosed]
    rw [decide_eq_false (not_lt.mpr hle)]
    simp

/-- Witness for C3's amended theorem: with `level` already at `closeThreshold`,
one loud sample opens the gate and it stays open through the close test. -/
theorem gate_open_within_sample_witness :
    (gateStep { sampleData with level := 1/40 } [1/2]).isOpen
      = decide (({ sampleData with level := 1/40 } : MutedData).closeThreshold
          ≤ ({ sampleData with level := 1/40 } : MutedData).level) :=
  (gate_open_within_sample { sampleData with level := 1/40 } [1/2] rfl).1
    (by norm_num [curLevel, sampleData, abs_of_nonneg])

/-! ### Claim C4 -/

/-- Claim C4: an open gate closes only when the smoothed `level` carried from
the previous sample is below `closeThreshold`; in particular a raw sample of
any value — including a single-sample dip below `closeThreshold` — leaves the
gate open as long as the carried `level` is at or above `closeThreshold`. -/
theorem gate_close_needs_low_smoothed_level (ng : MutedData) (frame : List ℚ)
    (hopen : ng.isOpen = true) :
    ((gateStep ng frame).isOpen = false → ng.level < ng.closeThreshold) ∧
    (ng.closeThreshold ≤ ng.level → (gateStep ng frame).isOpen = true) := by
  constructor
  · intro hclosed
    rw [gateStep, gateStepLevel_isOpen, hopen] at hclosed
    by_cases hl : ng.level < ng.closeThreshold
    · exact hl
    · rw [decide_eq_false hl] at hclosed
      simp at hclosed
  · intro hle
    rw [gateStep, gateStepLevel_isOpen, hopen]
    rw [decide_eq_false (not_lt.mpr hle)]
    simp

/-- Witness for C4: raw dip to 0 (below `closeThreshold` 1/40) while the
carried `level` is 1/30 ≥ 1/40 — the gate stays open. -/
theorem gate_close_needs_low_smoothed_level_witness :
    (gateStep { sampleData with isOpen := true, level := 1/30 } [0]).isOpen = true :=
  (gate_close_needs_low_smoothed_level { sampleData with isOpen := true, level := 1/30 }
      [0] rfl).2 (by norm_num [sampleData])

/-! ### Claim C5 -/

/-- Claim C5: a buffer processed while the source is not muted forces
`isOpen = false`, changes nothing else, and performs no trigger check; a
trigger can only ever fire from a muted buffer, and if the gate was closed when
that buffer began, only because some frame in it exceeded `openThreshold`. -/
theorem unmuted_buffer_no_trigger (ng : MutedData) (frames : List (List ℚ))
    (timeMs : ℕ) (muted : Bool) :
    (mutedFilterAudio ng false frames timeMs = ({ ng with isOpen := false }, false)) ∧
    ((mutedFilterAudio ng muted frames timeMs).2 = true → muted = true) ∧
    ((mutedFilterAudio ng muted frames timeMs).2 = true → ng.isOpen = false →
      ∃ f ∈ frames, ng.openThreshold < curLevel f) := by
  refine ⟨mutedFilterAudio_not_muted ng frames timeMs, ?_, ?_⟩
  · intro hf
    cases muted with
    | true => rfl
    | false =>
        rw [mutedFilterAudio_not_muted] at hf
        exact absurd hf (by simp)
  · intro hf hclosed
    cases muted with
    | false =>
        rw [mutedFilterAudio_not_muted] at hf
        exact absurd hf (by simp)
    | true =>
        rw [mutedFilterAudio_muted_fired] at hf
        exact processFrames_open_needs_loud frames ng hclosed ((Bool.and_eq_true _ _).mp hf).1

/-- Witness for C5: a concrete muted buffer that fires from a closed gate
indeed contains a frame above the open threshold. -/
theorem unmuted_buffer_no_trigger_witness :
    ∃ f ∈ [[(1:ℚ)/2], [(1:ℚ)/2]], sampleData.openThreshold < curLevel f :=
  (unmuted_buffer_no_trigger sampleData [[(1:ℚ)/2], [(1:ℚ)/2]] 2501 true).2.2
    (by norm_num [mutedFilterAudio, processFrames, gateStep, gateStepLevel, curLevel,
      sampleData, abs_of_nonneg]) rfl

/-! ### Claim C6 -/

/-- Claim C6: every settings update, whatever the new parameter values and
whatever the clip/device reload does, resets the gate state to its initial
values: `isOpen = false`, `attenuation = 0`, `level = 0`, `heldTime = 0`. -/
theorem update_resets_gate_state (dbToMul : ℚ → ℚ) (ng : MutedData)
    (s : MSettings) (env : ReloadEnv) :
    (mutedUpdate dbToMul ng s env).isOpen = false ∧
    (mutedUpdate dbToMul ng s env).attenuation = 0 ∧
    (mutedUpdate dbToMul ng s env).level = 0 ∧
    (mutedUpdate dbToMul ng s env).heldTime = 0 :=
  ⟨mutedUpdate_isOpen dbToMul ng s env, mutedUpdate_attenuation dbToMul ng s env,
    mutedUpdate_level dbToMul ng s env, mutedUpdate_heldTime dbToMul ng s env⟩

/-! ### Claim C7 -/

/-- Claim C7's "arbitrarily negative during extended silence" is false: at the
concrete configuration `sampleData` (`decayRate = 1/4`, initial `level = 0`),
no amount of silence ever drives `level` below -1, because each step computes
`max(level, curLevel) - decayRate ≥ 0 - decayRate`. -/
theorem level_not_arbitrarily_negative :
    ¬ ∃ n : ℕ, (processFrames sampleData (List.replicate n [(0:ℚ)])).level < -1 := by
  rintro ⟨n, h⟩
  have hb := processFrames_level_lb (List.replicate n [(0:ℚ)]) sampleData
  have hmin : min sampleData.level (-sampleData.decayRate) = -(1/4) := by
    norm_num [sampleData]
  rw [hmin] at hb
  linarith

/-- Claim C7 (amended): on every sample the envelope is updated as
`level = max(level, curLevel) - decayRate` whether the gate is open or closed,
with no lower clamp, and `decayRate` is configured as
`(openThreshold - closeThreshold) / ((1/75) * sampleRate)`; `level` can go
negative, but after any step it is at least `-decayRate` (the `max` with the
nonnegative per-sample peak bounds it), so it does not drift arbitrarily
negative during silence. -/
theorem level_decay_unclamped (ng rawng : MutedData) (frame : List ℚ)
    (dbToMul : ℚ → ℚ) (s : MSettings) (env : ReloadEnv) :
    (gateStep ng frame).level = max ng.level (curLevel frame) - ng.decayRate ∧
    -ng.decayRate ≤ (gateStep ng frame).level ∧
    (mutedUpdate dbToMul rawng s env).decayRate
      = (dbToMul s.openThresholdDb - dbToMul s.closeThresholdDb) / (1 / 75 * s.sampleRate) :=
  ⟨gateStepLevel_level ng (curLevel frame), gateStep_level_lb ng frame,
    mutedUpdate_decayRate dbToMul rawng s env⟩

/-! ### Claim C8 -/

/-- Claim C8 describes the intended clip length, but `load_wav` divides the
frame count by the sample rate BEFORE scaling to milliseconds (uint64
truncating division): a clip of 72000 PCM frames decoded at 48000 Hz — exactly
1.5 seconds — is recorded as `fileLength = 1000` ms, not the 1500 ms the claim
prescribes via `N * 1000 / R`. -/
theorem clip_length_truncated_to_seconds :
    (loadWav sampleData "clip.wav" true true 72000 48000).fileLength = 1000 ∧
    72000 * 1000 / 48000 = 1500 ∧
    (loadWav sampleData "clip.wav" true true 72000 48000).fileLength
      ≠ 72000 * 1000 / 48000 := by
  refine ⟨?_, by norm_num, ?_⟩ <;> norm_num [loadWav]

/-! ### Claim C9 -/

/-- Claim C9's end-of-sample `heldTime = 0` is off by one update: after the
close branch zeroes `heldTime`, the hold accumulator adds one sample period, so
the sample that opened-and-re-closed the gate ends with
`heldTime = 1/sampleRate ≠ 0`. -/
theorem single_loud_sample_heldTime_nonzero :
    sampleData.isOpen = false ∧
    sampleData.level < sampleData.closeThreshold ∧
    sampleData.openThreshold < curLevel [1/2] ∧
    (gateStep sampleData [1/2]).isOpen = false ∧
    (gateStep sampleData [1/2]).heldTime ≠ 0 := by
  refine ⟨rfl, ?_, ?_, ?_, ?_⟩ <;>
    norm_num [gateStep, gateStepLevel, curLevel, sampleData, abs_of_nonneg]

/-- Claim C9 (amended): from a closed gate whose carried `level` is below
`closeThreshold`, a sample above `openThreshold` leaves the gate closed at the
end of that sample (open branch and close branch both run in the same
iteration), with `heldTime` reset by the close branch and then advanced to one
sample period (`sampleRateI`) by the hold logic; after a second consecutive
above-threshold sample the gate is open exactly when the `level` carried out of
the first sample reached `closeThreshold`. -/
theorem loud_sample_reopens_after_two (ng : MutedData) (f1 f2 : List ℚ)
    (hclosed : ng.isOpen = false) (hlow : ng.level < ng.closeThreshold)
    (h1 : ng.openThreshold < curLevel f1) (h2 : ng.openThreshold < curLevel f2) :
    (gateStep ng f1).isOpen = false ∧
    (gateStep ng f1).heldTime = ng.sampleRateI ∧
    (gateStep (gateStep ng f1) f2).isOpen
      = decide (ng.closeThreshold ≤ (gateStep ng f1).level) := by
  have hopen1 : (gateStep ng f1).isOpen = false := by
    rw [gateStep, gateStepLevel_isOpen, hclosed]
    rw [decide_eq_true hlow]
    simp
  refine ⟨hopen1, ?_, ?_⟩
  · simp [gateStep, gateStepLevel, hclosed, hlow, h1]
  · rw [gateStep, gateStepLevel_isOpen, hopen1]
    have hot : (gateStep ng f1).openThreshold = ng.openThreshold :=
      gateStepLevel_openThreshold ng (curLevel f1)
    have hct : (gateStep ng f1).closeThreshold = ng.closeThreshold :=
      gateStepLevel_closeThreshold ng (curLevel f1)
    rw [hot, hct, decide_eq_true h2]
    simp only [Bool.false_or, Bool.true_and]
    exact bool_not_decide_lt (gateStep ng f1).level ng.closeThreshold

/-- Witness for C9's amended theorem at `sampleData` with two loud samples. -/
theorem loud_sample_reopens_after_two_witness :
    (gateStep sampleData [1/2]).isOpen = false ∧
    (gateStep sampleData [1/2]).heldTime = sampleData.sampleRateI ∧
    (gateStep (gateStep sampleData [1/2]) [1/2]).isOpen
      = decide (sampleData.closeThreshold ≤ (gateStep sampleData [1/2]).level) :=
  loud_sample_reopens_after_two sampleData [1/2] [1/2] rfl
    (by norm_num [sampleData])
    (by norm_num [curLevel, sampleData, abs_of_nonneg])
    (by norm_num [curLevel, sampleData, abs_of_nonneg])

/-! ### Claim C10 -/

/-- Claim C10: a settings update never touches `last_play_time`, so a
refractory window opened by an earlier trigger keeps suppressing triggers after
the update: any buffer that fires after the update must lie strictly beyond
`fileLength + cooldown` ms measured from the PRE-update `lastPlayTime`. -/
theorem update_preserves_last_fire_time (dbToMul : ℚ → ℚ) (ng : MutedData)
    (s : MSettings) (env : ReloadEnv) (muted : Bool) (frames : List (List ℚ))
    (timeMs : ℕ) :
    (mutedUpdate dbToMul ng s env).lastPlayTime = ng.lastPlayTime ∧
    ((mutedFilterAudio (mutedUpdate dbToMul ng s env) muted frames timeMs).2 = true →
      (mutedUpdate dbToMul ng s env).fileLength + s.cooldown < timeMs - ng.lastPlayTime) := by
  refine ⟨mutedUpdate_lastPlayTime dbToMul ng s env, ?_⟩
  intro hf
  cases muted with
  | false =>
      rw [mutedFilterAudio_not_muted] at hf
      exact absurd hf (by simp)
  | true =>
      rw [mutedFilterAudio_muted_fired] at hf
      have h2 := of_decide_eq_true ((Bool.and_eq_true _ _).mp hf).2
      rwa [mutedUpdate_lastPlayTime, mutedUpdate_cooldown] at h2

/-- Witness for C10: a buffer that fires right after a settings update is
indeed beyond the old refractory window. -/
theorem update_preserves_last_fire_time_witness :
    (mutedUpdate (fun db => db) sampleData sampleSettings sampleEnv).fileLength
        + sampleSettings.cooldown < 2501 - sampleData.lastPlayTime :=
  (update_preserves_last_fire_time (fun db => db) sampleData sampleSettings sampleEnv
      true [[(1:ℚ)/2], [(1:ℚ)/2]] 2501).2
    (by norm_num [mutedFilterAudio, mutedUpdate, processFrames, gateStep, gateStepLevel,
      curLevel, sampleData, sampleSettings, sampleEnv, msToSecf, abs_of_nonneg])
